import Mathlib

/-!
Verification of the gully-cricket scoring service (`src/main.py`).

The service keeps its state in five sqlite tables (`matches`, `innings`,
`batsmen`, `bowlers`, `balls`); every endpoint opens the database, runs a few
`SELECT`/`INSERT`/`UPDATE` statements and commits.  We embed that state as a
`DB` structure holding one list per table (rows in insertion order, which is
the order sqlite returns them in for the unordered `SELECT`s used here) plus
the autoincrement counters, and each endpoint as a function on `DB`.
`fetchone` becomes `List.find?`; an `UPDATE ... WHERE id = ?` becomes a `map`
that rewrites every row whose `id` matches, exactly as SQL does; an endpoint
that raises `HTTPException` before `commit` returns an error and leaves the
state unchanged.
-/

set_option autoImplicit false

namespace GullyCricket

/-- Row of the `matches` table. -/
structure Match where
  id : Nat
  team1 : String
  team2 : String
  overs : Nat
  current_inning : Nat
  status : String
  winner : Option String
deriving Repr, DecidableEq

/-- Row of the `innings` table. -/
structure Inning where
  id : Nat
  match_id : Nat
  inning_number : Nat
  batting_team : String
  bowling_team : String
  total_runs : Nat
  total_wickets : Nat
  total_balls : Nat
  extras : Nat
deriving Repr, DecidableEq

/-- Row of the `batsmen` table. -/
structure Batsman where
  id : Nat
  inning_id : Nat
  name : String
  runs : Nat
  balls : Nat
  fours : Nat
  sixes : Nat
  is_out : Bool
  out_type : Option String
  is_striker : Bool
deriving Repr, DecidableEq

/-- Row of the `bowlers` table. -/
structure Bowler where
  id : Nat
  inning_id : Nat
  name : String
  overs : Nat
  balls : Nat
  runs_given : Nat
  wickets : Nat
  maidens : Nat
  is_current : Bool
deriving Repr, DecidableEq

/-- Row of the `balls` table (one recorded delivery). -/
structure Ball where
  id : Nat
  inning_id : Nat
  over_number : Nat
  ball_number : Nat
  runs : Nat
  is_wicket : Bool
  is_extra : Bool
  extra_type : Option String
  batsman_id : Nat
  bowler_id : Nat
deriving Repr, DecidableEq

/-- The whole database: the five tables plus the per-table autoincrement
counters (sqlite `INTEGER PRIMARY KEY AUTOINCREMENT`). -/
structure DB where
  matches_ : List Match
  innings : List Inning
  batsmen : List Batsman
  bowlers : List Bowler
  balls : List Ball
  next_match_id : Nat
  next_inning_id : Nat
  next_batsman_id : Nat
  next_bowler_id : Nat
  next_ball_id : Nat
deriving Repr, DecidableEq

/-- The empty database, right after `init_db`. -/
def DB.empty : DB :=
  { matches_ := [], innings := [], batsmen := [], bowlers := [], balls := []
    next_match_id := 1, next_inning_id := 1, next_batsman_id := 1
    next_bowler_id := 1, next_ball_id := 1 }

/-- The pydantic request body `BallUpdate`. -/
structure BallUpdate where
  runs : Nat
  is_wicket : Bool
  wicket_type : Option String
  is_extra : Bool
  extra_type : Option String
deriving Repr, DecidableEq

/-- The condition `not ball.is_extra or ball.extra_type in ['lb', 'b']`,
which `add_ball` repeats verbatim to guard the striker's, the bowler's and
the innings' ball counters. -/
def legalCond (u : BallUpdate) : Bool :=
  !u.is_extra || (u.extra_type == some "lb" || u.extra_type == some "b")

/-- `SELECT * FROM innings WHERE id = ? (fetchone)`. -/
def findInning (db : DB) (inning_id : Nat) : Option Inning :=
  db.innings.find? (fun i => i.id == inning_id)

/-- `SELECT * FROM batsmen WHERE inning_id = ? AND is_striker = 1 (fetchone)`. -/
def findStriker (db : DB) (inning_id : Nat) : Option Batsman :=
  db.batsmen.find? (fun b => b.inning_id == inning_id && b.is_striker)

/-- `SELECT * FROM bowlers WHERE inning_id = ? AND is_current = 1 (fetchone)`. -/
def findCurrentBowler (db : DB) (inning_id : Nat) : Option Bowler :=
  db.bowlers.find? (fun w => w.inning_id == inning_id && w.is_current)

/-- Combined effect of `add_ball`'s `UPDATE batsmen` statements on a row
matching the striker's id: the conditional `balls` bump (line 237), the
run/four/six attribution (lines 240-245), and the wicket marking
(lines 259-260). -/
def updateStrikerRow (u : BallUpdate) (b : Batsman) : Batsman :=
  let b1 := if legalCond u then { b with balls := b.balls + 1 } else b
  let b2 :=
    if !u.is_extra then
      let br := { b1 with runs := b1.runs + u.runs }
      if u.runs == 4 then { br with fours := br.fours + 1 }
      else if u.runs == 6 then { br with sixes := br.sixes + 1 }
      else br
    else b1
  if u.is_wicket then { b2 with is_out := true, out_type := u.wicket_type } else b2

/-- Combined effect of `add_ball`'s `UPDATE bowlers` statements on a row
matching the current bowler's id.  `fetchedBalls` is `bowler['balls']` as read
at the start of the request: the code sets `overs = (bowler['balls'] + 1) // 6`
(lines 251-252), using that fetched value rather than re-reading the row. -/
def updateBowlerRow (u : BallUpdate) (fetchedBalls : Nat) (w : Bowler) : Bowler :=
  let w1 := if legalCond u
    then { w with balls := w.balls + 1, overs := (fetchedBalls + 1) / 6 }
    else w
  let w2 := { w1 with runs_given := w1.runs_given + u.runs }
  if u.is_wicket then { w2 with wickets := w2.wickets + 1 } else w2

/-- Combined effect of `add_ball`'s `UPDATE innings` statements on a row
matching the inning id (lines 263-273). -/
def updateInningRow (u : BallUpdate) (i : Inning) : Inning :=
  let i1 := if legalCond u then { i with total_balls := i.total_balls + 1 } else i
  let i2 := { i1 with total_runs := i1.total_runs + u.runs }
  let i3 := if u.is_extra then { i2 with extras := i2.extras + u.runs } else i2
  if u.is_wicket then { i3 with total_wickets := i3.total_wickets + 1 } else i3

/-- Failure modes of `add_ball`: the two explicit `HTTPException(400)`s
("No striker batsman found", "No current bowler found"), and the uncaught
`TypeError` the handler hits at line 225 when the innings row does not exist
(`inning` is `None`); in every case nothing is committed. -/
inductive AddBallError where
  | noStriker
  | noBowler
  | noInning
deriving Repr, DecidableEq

/-- `POST /api/innings/{inning_id}/balls` (`add_ball`, lines 202-278).
The striker and bowler lookups are checked in that order before any write;
the innings row is fetched first but only dereferenced later, so a missing
innings surfaces only after both checks.  On success the handler inserts the
delivery record and applies the `UPDATE`s described by the three row-update
functions, all committed together. -/
def add_ball (db : DB) (inning_id : Nat) (ball : BallUpdate) :
    Except AddBallError DB :=
  match findStriker db inning_id with
  | none => .error .noStriker
  | some striker =>
    match findCurrentBowler db inning_id with
    | none => .error .noBowler
    | some bowler =>
      match findInning db inning_id with
      | none => .error .noInning
      | some inning =>
        let total_balls := inning.total_balls
        let newBall : Ball :=
          { id := db.next_ball_id
            inning_id := inning_id
            over_number := total_balls / 6
            ball_number := total_balls % 6
            runs := ball.runs
            is_wicket := ball.is_wicket
            is_extra := ball.is_extra
            extra_type := ball.extra_type
            batsman_id := striker.id
            bowler_id := bowler.id }
        .ok { db with
          balls := db.balls ++ [newBall]
          batsmen := db.batsmen.map fun b =>
            if b.id == striker.id then updateStrikerRow ball b else b
          bowlers := db.bowlers.map fun w =>
            if w.id == bowler.id then updateBowlerRow ball bowler.balls w else w
          innings := db.innings.map fun i =>
            if i.id == inning_id then updateInningRow ball i else i
          next_ball_id := db.next_ball_id + 1 }

/-- `UPDATE batsmen SET is_striker = 0 WHERE inning_id = ?`. -/
def clearStrikers (l : List Batsman) (inning_id : Nat) : List Batsman :=
  l.map fun b =>
    if b.inning_id == inning_id then { b with is_striker := false } else b

/-- `UPDATE batsmen SET is_striker = 1 WHERE id = ?`. -/
def setStrikerFlag (l : List Batsman) (batsman_id : Nat) : List Batsman :=
  l.map fun b =>
    if b.id == batsman_id then { b with is_striker := true } else b

/-- `UPDATE bowlers SET is_current = 0 WHERE inning_id = ?`. -/
def clearCurrent (l : List Bowler) (inning_id : Nat) : List Bowler :=
  l.map fun w =>
    if w.inning_id == inning_id then { w with is_current := false } else w

/-- The row `add_batsman` inserts (all counters at their column defaults). -/
def newBatsmanRow (db : DB) (inning_id : Nat) (name : String)
    (is_striker : Bool) : Batsman :=
  { id := db.next_batsman_id, inning_id := inning_id, name := name
    runs := 0, balls := 0, fours := 0, sixes := 0
    is_out := false, out_type := none, is_striker := is_striker }

/-- The row `add_bowler` inserts (current by construction). -/
def newBowlerRow (db : DB) (inning_id : Nat) (name : String) : Bowler :=
  { id := db.next_bowler_id, inning_id := inning_id, name := name
    overs := 0, balls := 0, runs_given := 0, wickets := 0, maidens := 0
    is_current := true }

/-- `POST /api/innings/{inning_id}/batsmen` (`add_batsman`, lines 170-185):
if the new batsman is a striker, first `UPDATE batsmen SET is_striker = 0
WHERE inning_id = ?`, then insert.  No check that the innings exists. -/
def add_batsman (db : DB) (inning_id : Nat) (name : String)
    (is_striker : Bool) : DB :=
  let cleared :=
    if is_striker then clearStrikers db.batsmen inning_id else db.batsmen
  { db with batsmen := cleared ++ [newBatsmanRow db inning_id name is_striker]
            next_batsman_id := db.next_batsman_id + 1 }

/-- `POST /api/innings/{inning_id}/bowlers` (`add_bowler`, lines 187-200):
unconditionally `UPDATE bowlers SET is_current = 0 WHERE inning_id = ?`, then
insert the new bowler with `is_current = True`.  No check that the innings
exists. -/
def add_bowler (db : DB) (inning_id : Nat) (name : String) : DB :=
  { db with bowlers := clearCurrent db.bowlers inning_id ++
      [newBowlerRow db inning_id name]
            next_bowler_id := db.next_bowler_id + 1 }

/-- `PUT /api/batsmen/{batsman_id}/striker` (`toggle_striker`,
lines 280-297): 404 if the batsman does not exist; otherwise clear
`is_striker` across the batsman's innings, then set it on the target id. -/
def toggle_striker (db : DB) (batsman_id : Nat) : Except Unit DB :=
  match db.batsmen.find? (fun b => b.id == batsman_id) with
  | none => .error ()
  | some batsman =>
    .ok { db with
      batsmen := setStrikerFlag
        (clearStrikers db.batsmen batsman.inning_id) batsman_id }

/-- Failure modes of `next_inning`: 404 "Match not found" and 400
"Match already has 2 innings". -/
inductive NextInningError where
  | matchNotFound
  | alreadySecondInning
deriving Repr, DecidableEq

/-- `POST /api/matches/{match_id}/next-inning` (`next_inning`,
lines 299-321): 404 if the match does not exist, 400 if `current_inning >= 2`;
otherwise insert innings 2 with the teams swapped and set
`current_inning = 2`. -/
def next_inning (db : DB) (match_id : Nat) : Except NextInningError DB :=
  match db.matches_.find? (fun m => m.id == match_id) with
  | none => .error .matchNotFound
  | some m =>
    if m.current_inning ≥ 2 then .error .alreadySecondInning
    else
      let newInning : Inning :=
        { id := db.next_inning_id, match_id := match_id, inning_number := 2
          batting_team := m.team2, bowling_team := m.team1
          total_runs := 0, total_wickets := 0, total_balls := 0, extras := 0 }
      .ok { db with
        innings := db.innings ++ [newInning]
        matches_ := db.matches_.map fun x =>
          if x.id == match_id then { x with current_inning := 2 } else x
        next_inning_id := db.next_inning_id + 1 }

/-- `POST /api/matches` (`create_match`, lines 116-132): insert the match and
its first innings (batting team1, bowling team2); returns the new match id. -/
def create_match (db : DB) (team1 team2 : String) (overs : Nat) : DB × Nat :=
  let match_id := db.next_match_id
  let m : Match :=
    { id := match_id, team1 := team1, team2 := team2, overs := overs
      current_inning := 1, status := "in_progress", winner := none }
  let i : Inning :=
    { id := db.next_inning_id, match_id := match_id, inning_number := 1
      batting_team := team1, bowling_team := team2
      total_runs := 0, total_wickets := 0, total_balls := 0, extras := 0 }
  ({ db with matches_ := db.matches_ ++ [m]
             innings := db.innings ++ [i]
             next_match_id := db.next_match_id + 1
             next_inning_id := db.next_inning_id + 1 },
   match_id)

/-- One HTTP request to `POST .../balls`: when the handler raises, nothing was
committed, so the observable state is unchanged. -/
def applyBall (db : DB) (d : Nat × BallUpdate) : DB :=
  match add_ball db d.1 d.2 with
  | .ok db' => db'
  | .error _ => db

/-- A sequence of `add_ball` requests, each targeting some innings id. -/
def runBalls (db : DB) (ds : List (Nat × BallUpdate)) : DB :=
  ds.foldl applyBall db

/-- Spec-side predicate (§8 of the spec): a delivery record counts toward
`total_balls` when its `extra_type` is not wide or no-ball.  The spec names
the enum values wide/no-ball/bye/leg-bye; the code reads them as the strings
`'wd'`/`'nb'`/`'b'`/`'lb'` (it tests `extra_type in ['lb', 'b']`). -/
def countedDelivery (b : Ball) : Bool :=
  !(b.extra_type == some "wd" || b.extra_type == some "nb")

/-- A well-formed request body: an extra carries one of the four extra-type
codes, a non-extra carries no extra type (the pydantic default). -/
def wfBallUpdate (u : BallUpdate) : Bool :=
  if u.is_extra then
    [some "wd", some "nb", some "b", some "lb"].contains u.extra_type
  else u.extra_type == none

/-- The invariant of C1: every innings row's `total_balls` equals the number
of its delivery records whose `extra_type` is not wide/no-ball. -/
def ballTallyInv (db : DB) : Prop :=
  ∀ i ∈ db.innings,
    i.total_balls =
      db.balls.countP fun b => b.inning_id == i.id && countedDelivery b

instance (db : DB) : Decidable (ballTallyInv db) :=
  inferInstanceAs (Decidable (∀ i ∈ db.innings, _ = _))

/-- The participant-registry operations of §4.2 that touch the striker /
current-bowler flags. -/
inductive Op where
  | addBatsman (inning_id : Nat) (name : String) (is_striker : Bool)
  | addBowler (inning_id : Nat) (name : String)
  | setStriker (batsman_id : Nat)
deriving Repr, DecidableEq

/-- One registry request; a 404 from `toggle_striker` commits nothing. -/
def applyOp (db : DB) : Op → DB
  | .addBatsman inning_id name is_striker => add_batsman db inning_id name is_striker
  | .addBowler inning_id name => add_bowler db inning_id name
  | .setStriker batsman_id =>
    match toggle_striker db batsman_id with
    | .ok db' => db'
    | .error _ => db

/-- A sequence of registry requests. -/
def runOps (db : DB) (ops : List Op) : DB :=
  ops.foldl applyOp db

/-- Number of batsmen of one innings flagged as striker. -/
def strikerCount (l : List Batsman) (inning_id : Nat) : Nat :=
  l.countP fun b => b.inning_id == inning_id && b.is_striker

/-- Number of bowlers of one innings flagged as current. -/
def currentCount (l : List Bowler) (inning_id : Nat) : Nat :=
  l.countP fun w => w.inning_id == inning_id && w.is_current

/-- Registry invariant: batsman ids are below the autoincrement counter and
pairwise distinct (sqlite `INTEGER PRIMARY KEY AUTOINCREMENT`), and each
innings has at most one striker and at most one current bowler. -/
def regInv (db : DB) : Prop :=
  (∀ b ∈ db.batsmen, b.id < db.next_batsman_id) ∧
  (db.batsmen.map Batsman.id).Nodup ∧
  (∀ inning_id, strikerCount db.batsmen inning_id ≤ 1) ∧
  (∀ inning_id, currentCount db.bowlers inning_id ≤ 1)

/-! ### A concrete match, used to instantiate the theorems -/

/-- `create_match("A", "B", overs=2)` on the fresh database. -/
def demoDB0 : DB := (create_match DB.empty "A" "B" 2).1

/-- …then `add_batsman(1, "X", is_striker=True)` and `add_bowler(1, "Y")`. -/
def demoDB : DB := add_bowler (add_batsman demoDB0 1 "X" true) 1 "Y"

/-- The match row of `demoDB0`. -/
def demoMatch1 : Match :=
  { id := 1, team1 := "A", team2 := "B", overs := 2, current_inning := 1
    status := "in_progress", winner := none }

/-- The striker row of `demoDB`. -/
def demoStriker : Batsman :=
  { id := 1, inning_id := 1, name := "X", runs := 0, balls := 0, fours := 0
    sixes := 0, is_out := false, out_type := none, is_striker := true }

/-- The current-bowler row of `demoDB`. -/
def demoBowler : Bowler :=
  { id := 1, inning_id := 1, name := "Y", overs := 0, balls := 0
    runs_given := 0, wickets := 0, maidens := 0, is_current := true }

/-- A legal dot ball. -/
def demoDot : BallUpdate :=
  { runs := 0, is_wicket := false, wicket_type := none
    is_extra := false, extra_type := none }

/-- A boundary four off the bat. -/
def demoFour : BallUpdate :=
  { runs := 4, is_wicket := false, wicket_type := none
    is_extra := false, extra_type := none }

/-- A wide worth one run. -/
def demoWide : BallUpdate :=
  { runs := 1, is_wicket := false, wicket_type := none
    is_extra := true, extra_type := some "wd" }

/-- A bowled dismissal on a legal delivery. -/
def demoWicket : BallUpdate :=
  { runs := 0, is_wicket := true, wicket_type := some "bowled"
    is_extra := false, extra_type := none }

/-- `demoDB` after five legal dot balls. -/
def demoDB5 : DB := runBalls demoDB (List.replicate 5 (1, demoDot))

/-- The bowler row after those five deliveries. -/
def demoBowler5 : Bowler :=
  { id := 1, inning_id := 1, name := "Y", overs := 0, balls := 5
    runs_given := 0, wickets := 0, maidens := 0, is_current := true }

/-- `demoDB` after one four. -/
def demoFourDB : DB := applyBall demoDB (1, demoFour)

/-- `demoDB` after one wide. -/
def demoWideDB : DB := applyBall demoDB (1, demoWide)

/-- `demoDB` after one wicket delivery. -/
def demoWicketDB : DB := applyBall demoDB (1, demoWicket)

/-- `demoDB5` after the sixth legal dot ball. -/
def demoDB6 : DB := applyBall demoDB5 (1, demoDot)

/-- A sample registry workload: two striker insertions, two bowler
insertions and one explicit striker switch, all on innings 1. -/
def demoOps : List Op :=
  [.addBatsman 1 "X" true, .addBatsman 1 "Z" true, .addBowler 1 "Y",
   .addBowler 1 "W", .setStriker 1]

/-! ### Characterizations of the row updates -/

/-- `updateStrikerRow` written field by field. -/
theorem updateStrikerRow_eq (u : BallUpdate) (b : Batsman) :
    updateStrikerRow u b =
      { b with
        balls := if legalCond u then b.balls + 1 else b.balls
        runs := if u.is_extra then b.runs else b.runs + u.runs
        fours := if !u.is_extra && u.runs == 4 then b.fours + 1 else b.fours
        sixes := if !u.is_extra && u.runs == 6 then b.sixes + 1 else b.sixes
        is_out := if u.is_wicket then true else b.is_out
        out_type := if u.is_wicket then u.wicket_type else b.out_type } := by
  unfold updateStrikerRow
  cases hc : legalCond u <;> cases hw : u.is_wicket <;> cases hx : u.is_extra <;>
    by_cases h4 : u.runs = 4 <;> by_cases h6 : u.runs = 6 <;>
    simp_all

/-- `updateBowlerRow` written field by field. -/
theorem updateBowlerRow_eq (u : BallUpdate) (n : Nat) (w : Bowler) :
    updateBowlerRow u n w =
      { w with
        balls := if legalCond u then w.balls + 1 else w.balls
        overs := if legalCond u then (n + 1) / 6 else w.overs
        runs_given := w.runs_given + u.runs
        wickets := if u.is_wicket then w.wickets + 1 else w.wickets } := by
  unfold updateBowlerRow
  cases hc : legalCond u <;> cases hw : u.is_wicket <;> simp_all

/-- `updateInningRow` written field by field. -/
theorem updateInningRow_eq (u : BallUpdate) (i : Inning) :
    updateInningRow u i =
      { i with
        total_balls := if legalCond u then i.total_balls + 1 else i.total_balls
        total_runs := i.total_runs + u.runs
        extras := if u.is_extra then i.extras + u.runs else i.extras
        total_wickets := if u.is_wicket then i.total_wickets + 1
                         else i.total_wickets } := by
  unfold updateInningRow
  cases hc : legalCond u <;> cases hw : u.is_wicket <;> cases hx : u.is_extra <;>
    simp_all

/-! ### Characterization of a successful `add_ball` -/

/-- When `add_ball` succeeds, the striker, current bowler and innings row all
existed, and the new state is the old one with the delivery appended and the
three per-row updates mapped over their tables. -/
theorem add_ball_ok (db : DB) (inning_id : Nat) (u : BallUpdate) (db' : DB)
    (h : add_ball db inning_id u = .ok db') :
    ∃ s w i, findStriker db inning_id = some s ∧
      findCurrentBowler db inning_id = some w ∧
      findInning db inning_id = some i ∧
      db' = { db with
        balls := db.balls ++
          [{ id := db.next_ball_id
             inning_id := inning_id
             over_number := i.total_balls / 6
             ball_number := i.total_balls % 6
             runs := u.runs
             is_wicket := u.is_wicket
             is_extra := u.is_extra
             extra_type := u.extra_type
             batsman_id := s.id
             bowler_id := w.id }]
        batsmen := db.batsmen.map fun b =>
          if b.id == s.id then updateStrikerRow u b else b
        bowlers := db.bowlers.map fun x =>
          if x.id == w.id then updateBowlerRow u w.balls x else x
        innings := db.innings.map fun x =>
          if x.id == inning_id then updateInningRow u x else x
        next_ball_id := db.next_ball_id + 1 } := by
  unfold add_ball at h
  cases hs : findStriker db inning_id with
  | none => rw [hs] at h; exact absurd h (by simp)
  | some s =>
    rw [hs] at h
    cases hw : findCurrentBowler db inning_id with
    | none => rw [hw] at h; exact absurd h (by simp)
    | some w =>
      rw [hw] at h
      cases hi : findInning db inning_id with
      | none => rw [hi] at h; exact absurd h (by simp)
      | some i =>
        rw [hi] at h
        simp only [Except.ok.injEq] at h
        exact ⟨s, w, i, rfl, rfl, rfl, h.symm⟩

/-! ### Lookup facts -/

/-- A found innings row is in the table and has the requested id. -/
theorem findInning_spec (db : DB) (inning_id : Nat) (i : Inning)
    (h : findInning db inning_id = some i) :
    i ∈ db.innings ∧ i.id = inning_id :=
  ⟨List.mem_of_find?_eq_some h, by simpa using List.find?_some h⟩

/-- A found striker is in the table, in the requested innings, and flagged. -/
theorem findStriker_spec (db : DB) (inning_id : Nat) (s : Batsman)
    (h : findStriker db inning_id = some s) :
    s ∈ db.batsmen ∧ s.inning_id = inning_id ∧ s.is_striker = true := by
  refine ⟨List.mem_of_find?_eq_some h, ?_⟩
  have := List.find?_some h
  simpa using this

/-- A found current bowler is in the table, in the requested innings, and
flagged. -/
theorem findCurrentBowler_spec (db : DB) (inning_id : Nat) (w : Bowler)
    (h : findCurrentBowler db inning_id = some w) :
    w ∈ db.bowlers ∧ w.inning_id = inning_id ∧ w.is_current = true := by
  refine ⟨List.mem_of_find?_eq_some h, ?_⟩
  have := List.find?_some h
  simpa using this

/-- With no striker, `add_ball` raises before writing anything. -/
theorem add_ball_noStriker (db : DB) (inning_id : Nat) (u : BallUpdate)
    (h : findStriker db inning_id = none) :
    add_ball db inning_id u = .error .noStriker := by
  unfold add_ball; rw [h]

/-- With a striker but no current bowler, `add_ball` raises before writing
anything. -/
theorem add_ball_noBowler (db : DB) (inning_id : Nat) (u : BallUpdate)
    (s : Batsman) (hs : findStriker db inning_id = some s)
    (h : findCurrentBowler db inning_id = none) :
    add_ball db inning_id u = .error .noBowler := by
  unfold add_ball; rw [hs, h]

/-- The striker's image under `add_ball`'s batsman update is in the new
table. -/
theorem mem_updated_batsmen (l : List Batsman) (s : Batsman) (hs : s ∈ l)
    (u : BallUpdate) :
    updateStrikerRow u s ∈
      l.map fun b => if b.id == s.id then updateStrikerRow u b else b :=
  List.mem_map.mpr ⟨s, hs, by simp⟩

/-- The bowler's image under `add_ball`'s bowler update is in the new
table. -/
theorem mem_updated_bowlers (l : List Bowler) (w : Bowler) (hw : w ∈ l)
    (u : BallUpdate) (n : Nat) :
    updateBowlerRow u n w ∈
      l.map fun x => if x.id == w.id then updateBowlerRow u n x else x :=
  List.mem_map.mpr ⟨w, hw, by simp⟩

/-- The innings row's image under `add_ball`'s innings update is in the new
table. -/
theorem mem_updated_innings (l : List Inning) (i : Inning) (hi : i ∈ l)
    (u : BallUpdate) (inning_id : Nat) (hid : i.id = inning_id) :
    updateInningRow u i ∈
      l.map fun x => if x.id == inning_id then updateInningRow u x else x :=
  List.mem_map.mpr ⟨i, hi, by simp [hid]⟩

/-- For a well-formed request body, the code's over-consumption test
(`not is_extra or extra_type in ['lb','b']`) agrees with the spec's
"extra_type is not wide/no-ball" predicate. -/
theorem legalCond_eq_not_wide_noball (u : BallUpdate)
    (hwf : wfBallUpdate u = true) :
    legalCond u = !(u.extra_type == some "wd" || u.extra_type == some "nb") := by
  unfold wfBallUpdate at hwf
  unfold legalCond
  cases hx : u.is_extra with
  | false =>
    rw [hx] at hwf
    simp at hwf
    simp [hwf]
  | true =>
    rw [hx] at hwf
    simp at hwf
    have : u.extra_type = some "wd" ∨ u.extra_type = some "nb" ∨
        u.extra_type = some "b" ∨ u.extra_type = some "lb" := by tauto
    rcases this with h | h | h | h <;> simp [h]

/-- One `add_ball` request — succeeding or raising — preserves the
delivery-count invariant, provided the request body is well-formed. -/
theorem ballTallyInv_applyBall (db : DB) (d : Nat × BallUpdate)
    (hwf : wfBallUpdate d.2 = true) (hinv : ballTallyInv db) :
    ballTallyInv (applyBall db d) := by
  unfold applyBall
  cases h : add_ball db d.1 d.2 with
  | error e => exact hinv
  | ok db' =>
    obtain ⟨s, w, i, hs, hw, hi, rfl⟩ := add_ball_ok db d.1 d.2 db' h
    intro i' hi'
    simp only [List.mem_map] at hi'
    obtain ⟨i0, hi0, rfl⟩ := hi'
    have hcnt := legalCond_eq_not_wide_noball d.2 hwf
    by_cases hc : (i0.id == d.1) = true
    · have hid : i0.id = d.1 := by simpa using hc
      simp only [hc, if_true, List.countP_append, updateInningRow_eq]
      have hbase := hinv i0 hi0
      have hnew : (List.countP
          (fun b => b.inning_id == i0.id && countedDelivery b)
          [({ id := db.next_ball_id, inning_id := d.1
              over_number := i.total_balls / 6, ball_number := i.total_balls % 6
              runs := d.2.runs, is_wicket := d.2.is_wicket
              is_extra := d.2.is_extra, extra_type := d.2.extra_type
              batsman_id := s.id, bowler_id := w.id } : Ball)]) =
          if legalCond d.2 then 1 else 0 := by
        simp only [List.countP_cons, List.countP_nil, countedDelivery, hid, hcnt]
        simp
      cases hl : legalCond d.2 <;> simp_all
    · have hid : i0.id ≠ d.1 := by simpa using hc
      simp only [hc, if_false, List.countP_append]
      have hbase := hinv i0 hi0
      have hnew : (List.countP
          (fun b => b.inning_id == i0.id && countedDelivery b)
          [({ id := db.next_ball_id, inning_id := d.1
              over_number := i.total_balls / 6, ball_number := i.total_balls % 6
              runs := d.2.runs, is_wicket := d.2.is_wicket
              is_extra := d.2.is_extra, extra_type := d.2.extra_type
              batsman_id := s.id, bowler_id := w.id } : Ball)]) = 0 := by
        simp only [List.countP_cons, List.countP_nil]
        simp [Ne.symm hid]
      simp_all

/-- C1: the running `total_balls` of every innings equals the number of its
recorded deliveries whose extra type is not wide/no-ball, over any sequence
of well-formed `add_ball` requests. -/
theorem total_balls_counts_non_wide_noball_deliveries (db : DB)
    (ds : List (Nat × BallUpdate))
    (hwf : ∀ d ∈ ds, wfBallUpdate d.2 = true) (hinv : ballTallyInv db) :
    ballTallyInv (runBalls db ds) := by
  induction ds generalizing db with
  | nil => exact hinv
  | cons d ds ih =>
    have h1 := ballTallyInv_applyBall db d (hwf d (by simp)) hinv
    exact ih (applyBall db d) (fun x hx => hwf x (by simp [hx])) h1

/-- Witness for C1 on the concrete match: a four, then a wide, then a dot
ball (total_balls ends at 2, with three delivery records). -/
theorem total_balls_counts_non_wide_noball_deliveries_witness :
    (∀ d ∈ [(1, demoFour), (1, demoWide), (1, demoDot)],
      wfBallUpdate d.2 = true) ∧
    ballTallyInv demoDB ∧
    ballTallyInv (runBalls demoDB [(1, demoFour), (1, demoWide), (1, demoDot)]) :=
  ⟨by decide, by decide,
    total_balls_counts_non_wide_noball_deliveries demoDB
      [(1, demoFour), (1, demoWide), (1, demoDot)] (by decide) (by decide)⟩

/-- C2: in one `add_ball` call the striker's balls faced, the bowler's balls
bowled and the innings' total_balls either all gain exactly 1 (legal
delivery) or all stay unchanged, never anything in between. -/
theorem ball_counters_lockstep (db db' : DB) (inning_id : Nat)
    (u : BallUpdate) (s : Batsman) (w : Bowler)
    (hs : findStriker db inning_id = some s)
    (hw : findCurrentBowler db inning_id = some w)
    (h : add_ball db inning_id u = .ok db') :
    ∃ i ∈ db.innings, ∃ s' ∈ db'.batsmen, ∃ w' ∈ db'.bowlers,
      ∃ i' ∈ db'.innings,
      i.id = inning_id ∧ s'.id = s.id ∧ w'.id = w.id ∧ i'.id = inning_id ∧
      ((legalCond u = true ∧ s'.balls = s.balls + 1 ∧ w'.balls = w.balls + 1 ∧
          i'.total_balls = i.total_balls + 1) ∨
        (legalCond u = false ∧ s'.balls = s.balls ∧ w'.balls = w.balls ∧
          i'.total_balls = i.total_balls)) := by
  obtain ⟨s0, w0, i0, hs0, hw0, hi0, rfl⟩ := add_ball_ok db inning_id u db' h
  rw [hs0] at hs; rw [hw0] at hw
  obtain rfl : s0 = s := by injection hs
  obtain rfl : w0 = w := by injection hw
  obtain ⟨hsmem, -, -⟩ := findStriker_spec db inning_id s0 hs0
  obtain ⟨hwmem, -, -⟩ := findCurrentBowler_spec db inning_id w0 hw0
  obtain ⟨himem, hiid⟩ := findInning_spec db inning_id i0 hi0
  refine ⟨i0, himem, updateStrikerRow u s0, mem_updated_batsmen _ s0 hsmem u,
    updateBowlerRow u w0.balls w0, mem_updated_bowlers _ w0 hwmem u w0.balls,
    updateInningRow u i0, mem_updated_innings _ i0 himem u inning_id hiid,
    hiid, by simp [updateStrikerRow_eq], by simp [updateBowlerRow_eq],
    by simp [updateInningRow_eq, hiid], ?_⟩
  cases hl : legalCond u
  · exact Or.inr ⟨rfl, by simp [updateStrikerRow_eq, hl],
      by simp [updateBowlerRow_eq, hl], by simp [updateInningRow_eq, hl]⟩
  · exact Or.inl ⟨rfl, by simp [updateStrikerRow_eq, hl],
      by simp [updateBowlerRow_eq, hl], by simp [updateInningRow_eq, hl]⟩

/-- Witness for C2: a wide on the concrete match (nothing consumed), applied
through the theorem. -/
theorem ball_counters_lockstep_witness :
    findStriker demoDB 1 = some demoStriker ∧
    findCurrentBowler demoDB 1 = some demoBowler ∧
    add_ball demoDB 1 demoWide = .ok (applyBall demoDB (1, demoWide)) ∧
    (∃ i ∈ demoDB.innings, ∃ s' ∈ (applyBall demoDB (1, demoWide)).batsmen,
      ∃ w' ∈ (applyBall demoDB (1, demoWide)).bowlers,
      ∃ i' ∈ (applyBall demoDB (1, demoWide)).innings,
      i.id = 1 ∧ s'.id = demoStriker.id ∧ w'.id = demoBowler.id ∧ i'.id = 1 ∧
      ((legalCond demoWide = true ∧ s'.balls = demoStriker.balls + 1 ∧
          w'.balls = demoBowler.balls + 1 ∧
          i'.total_balls = i.total_balls + 1) ∨
        (legalCond demoWide = false ∧ s'.balls = demoStriker.balls ∧
          w'.balls = demoBowler.balls ∧ i'.total_balls = i.total_balls))) :=
  ⟨by decide, by decide, by rfl,
    ball_counters_lockstep demoDB (applyBall demoDB (1, demoWide)) 1 demoWide
      demoStriker demoBowler (by decide) (by decide) (by rfl)⟩

/-- C3: an extra never changes the striker's runs and always adds the run
value to the innings' extras; on every delivery, extra or not, the run value
is added to the bowler's runs_given and the innings' total_runs. -/
theorem extras_run_attribution (db db' : DB) (inning_id : Nat)
    (u : BallUpdate) (s : Batsman) (w : Bowler)
    (hs : findStriker db inning_id = some s)
    (hw : findCurrentBowler db inning_id = some w)
    (h : add_ball db inning_id u = .ok db') :
    ∃ i ∈ db.innings, ∃ s' ∈ db'.batsmen, ∃ w' ∈ db'.bowlers,
      ∃ i' ∈ db'.innings,
      i.id = inning_id ∧ s'.id = s.id ∧ w'.id = w.id ∧ i'.id = inning_id ∧
      (u.is_extra = true → s'.runs = s.runs ∧ i'.extras = i.extras + u.runs) ∧
      w'.runs_given = w.runs_given + u.runs ∧
      i'.total_runs = i.total_runs + u.runs := by
  obtain ⟨s0, w0, i0, hs0, hw0, hi0, rfl⟩ := add_ball_ok db inning_id u db' h
  rw [hs0] at hs; rw [hw0] at hw
  obtain rfl : s0 = s := by injection hs
  obtain rfl : w0 = w := by injection hw
  obtain ⟨hsmem, -, -⟩ := findStriker_spec db inning_id s0 hs0
  obtain ⟨hwmem, -, -⟩ := findCurrentBowler_spec db inning_id w0 hw0
  obtain ⟨himem, hiid⟩ := findInning_spec db inning_id i0 hi0
  refine ⟨i0, himem, updateStrikerRow u s0, mem_updated_batsmen _ s0 hsmem u,
    updateBowlerRow u w0.balls w0, mem_updated_bowlers _ w0 hwmem u w0.balls,
    updateInningRow u i0, mem_updated_innings _ i0 himem u inning_id hiid,
    hiid, by simp [updateStrikerRow_eq], by simp [updateBowlerRow_eq],
    by simp [updateInningRow_eq, hiid],
    fun hx => ⟨by simp [updateStrikerRow_eq, hx],
      by simp [updateInningRow_eq, hx]⟩,
    by simp [updateBowlerRow_eq], by simp [updateInningRow_eq]⟩

/-- Witness for C3: the one-run wide on the concrete match. -/
theorem extras_run_attribution_witness :
    add_ball demoDB 1 demoWide = .ok demoWideDB ∧
    (∃ i ∈ demoDB.innings, ∃ s' ∈ demoWideDB.batsmen,
      ∃ w' ∈ demoWideDB.bowlers, ∃ i' ∈ demoWideDB.innings,
      i.id = 1 ∧ s'.id = demoStriker.id ∧ w'.id = demoBowler.id ∧ i'.id = 1 ∧
      (demoWide.is_extra = true →
        s'.runs = demoStriker.runs ∧ i'.extras = i.extras + demoWide.runs) ∧
      w'.runs_given = demoBowler.runs_given + demoWide.runs ∧
      i'.total_runs = i.total_runs + demoWide.runs) :=
  ⟨by rfl, extras_run_attribution demoDB demoWideDB 1 demoWide demoStriker
    demoBowler (by decide) (by decide) (by rfl)⟩

/-- C4: on a non-extra the run value goes to the striker, with the fours
counter bumped exactly when runs = 4 and the sixes counter exactly when
runs = 6, never both. -/
theorem striker_run_attribution (db db' : DB) (inning_id : Nat)
    (u : BallUpdate) (s : Batsman)
    (hs : findStriker db inning_id = some s)
    (h : add_ball db inning_id u = .ok db')
    (hx : u.is_extra = false) :
    ∃ s' ∈ db'.batsmen, s'.id = s.id ∧
      s'.runs = s.runs + u.runs ∧
      s'.fours = (if u.runs = 4 then s.fours + 1 else s.fours) ∧
      s'.sixes = (if u.runs = 6 then s.sixes + 1 else s.sixes) ∧
      ¬(s'.fours = s.fours + 1 ∧ s'.sixes = s.sixes + 1) := by
  obtain ⟨s0, w0, i0, hs0, hw0, hi0, rfl⟩ := add_ball_ok db inning_id u db' h
  rw [hs0] at hs
  obtain rfl : s0 = s := by injection hs
  obtain ⟨hsmem, -, -⟩ := findStriker_spec db inning_id s0 hs0
  refine ⟨updateStrikerRow u s0, mem_updated_batsmen _ s0 hsmem u,
    by simp [updateStrikerRow_eq], by simp [updateStrikerRow_eq, hx],
    ?_, ?_, ?_⟩
  · by_cases h4 : u.runs = 4 <;> simp [updateStrikerRow_eq, hx, h4]
  · by_cases h6 : u.runs = 6 <;> simp [updateStrikerRow_eq, hx, h6]
  · rintro ⟨hf, hsx⟩
    by_cases h4 : u.runs = 4 <;> by_cases h6 : u.runs = 6 <;>
      simp [updateStrikerRow_eq, hx, h4, h6] at hf hsx

/-- Witness for C4: the boundary four on the concrete match. -/
theorem striker_run_attribution_witness :
    add_ball demoDB 1 demoFour = .ok demoFourDB ∧ demoFour.is_extra = false ∧
    (∃ s' ∈ demoFourDB.batsmen, s'.id = demoStriker.id ∧
      s'.runs = demoStriker.runs + demoFour.runs ∧
      s'.fours = (if demoFour.runs = 4 then demoStriker.fours + 1
                  else demoStriker.fours) ∧
      s'.sixes = (if demoFour.runs = 6 then demoStriker.sixes + 1
                  else demoStriker.sixes) ∧
      ¬(s'.fours = demoStriker.fours + 1 ∧
        s'.sixes = demoStriker.sixes + 1)) :=
  ⟨by rfl, by decide, striker_run_attribution demoDB demoFourDB 1 demoFour
    demoStriker (by decide) (by rfl) (by decide)⟩

/-- C5: a wicket delivery bumps the bowler's wickets by one and marks the
striker out with the supplied wicket type, whether or not it is an extra. -/
theorem wicket_attribution (db db' : DB) (inning_id : Nat) (u : BallUpdate)
    (s : Batsman) (w : Bowler)
    (hs : findStriker db inning_id = some s)
    (hw : findCurrentBowler db inning_id = some w)
    (h : add_ball db inning_id u = .ok db')
    (hwk : u.is_wicket = true) :
    ∃ s' ∈ db'.batsmen, ∃ w' ∈ db'.bowlers, s'.id = s.id ∧ w'.id = w.id ∧
      s'.is_out = true ∧ s'.out_type = u.wicket_type ∧
      w'.wickets = w.wickets + 1 := by
  obtain ⟨s0, w0, i0, hs0, hw0, hi0, rfl⟩ := add_ball_ok db inning_id u db' h
  rw [hs0] at hs; rw [hw0] at hw
  obtain rfl : s0 = s := by injection hs
  obtain rfl : w0 = w := by injection hw
  obtain ⟨hsmem, -, -⟩ := findStriker_spec db inning_id s0 hs0
  obtain ⟨hwmem, -, -⟩ := findCurrentBowler_spec db inning_id w0 hw0
  exact ⟨updateStrikerRow u s0, mem_updated_batsmen _ s0 hsmem u,
    updateBowlerRow u w0.balls w0, mem_updated_bowlers _ w0 hwmem u w0.balls,
    by simp [updateStrikerRow_eq], by simp [updateBowlerRow_eq],
    by simp [updateStrikerRow_eq, hwk], by simp [updateStrikerRow_eq, hwk],
    by simp [updateBowlerRow_eq, hwk]⟩

/-- Witness for C5: a bowled dismissal on the concrete match. -/
theorem wicket_attribution_witness :
    add_ball demoDB 1 demoWicket = .ok demoWicketDB ∧
    demoWicket.is_wicket = true ∧
    (∃ s' ∈ demoWicketDB.batsmen, ∃ w' ∈ demoWicketDB.bowlers,
      s'.id = demoStriker.id ∧ w'.id = demoBowler.id ∧
      s'.is_out = true ∧ s'.out_type = demoWicket.wicket_type ∧
      w'.wickets = demoBowler.wickets + 1) :=
  ⟨by rfl, by decide, wicket_attribution demoDB demoWicketDB 1 demoWicket
    demoStriker demoBowler (by decide) (by decide) (by rfl) (by decide)⟩

/-- C6: whenever the bowler's tally is bumped, the new tally is the fetched
tally plus one — a running count that is never reset — and the overs field is
recomputed as the floor of the new tally over 6. -/
theorem bowler_overs_floor_of_tally (db db' : DB) (inning_id : Nat)
    (u : BallUpdate) (w : Bowler)
    (hw : findCurrentBowler db inning_id = some w)
    (h : add_ball db inning_id u = .ok db')
    (hl : legalCond u = true) :
    ∃ w' ∈ db'.bowlers, w'.id = w.id ∧ w'.balls = w.balls + 1 ∧
      w'.overs = (w.balls + 1) / 6 := by
  obtain ⟨s0, w0, i0, hs0, hw0, hi0, rfl⟩ := add_ball_ok db inning_id u db' h
  rw [hw0] at hw
  obtain rfl : w0 = w := by injection hw
  obtain ⟨hwmem, -, -⟩ := findCurrentBowler_spec db inning_id w0 hw0
  exact ⟨updateBowlerRow u w0.balls w0,
    mem_updated_bowlers _ w0 hwmem u w0.balls,
    by simp [updateBowlerRow_eq], by simp [updateBowlerRow_eq, hl],
    by simp [updateBowlerRow_eq, hl]⟩

/-- Witness for C6: the sixth consecutive legal delivery by the demo bowler,
after which the row shows balls = 6 and overs = 1. -/
theorem bowler_overs_floor_of_tally_witness :
    findCurrentBowler demoDB5 1 = some demoBowler5 ∧
    add_ball demoDB5 1 demoDot = .ok demoDB6 ∧
    (∃ w' ∈ demoDB6.bowlers, w'.id = 1 ∧ w'.balls = 6 ∧ w'.overs = 1) :=
  ⟨by decide, by rfl,
    bowler_overs_floor_of_tally demoDB5 demoDB6 1 demoDot demoBowler5
      (by decide) (by rfl) (by decide)⟩

/-- C8: with no striker or no current bowler the delivery request fails —
"no striker" checked first — and commits nothing: the observable state after
the request is exactly the old state. -/
theorem add_ball_requires_striker_and_bowler (db : DB) (inning_id : Nat)
    (u : BallUpdate)
    (hmiss : findStriker db inning_id = none ∨
      findCurrentBowler db inning_id = none) :
    (∃ e, add_ball db inning_id u = .error e) ∧
    applyBall db (inning_id, u) = db ∧
    (findStriker db inning_id = none →
      add_ball db inning_id u = .error .noStriker) ∧
    (findStriker db inning_id ≠ none →
      add_ball db inning_id u = .error .noBowler) := by
  have herr : ∃ e, add_ball db inning_id u = .error e := by
    rcases hmiss with h | h
    · exact ⟨_, add_ball_noStriker db inning_id u h⟩
    · cases hs : findStriker db inning_id with
      | none => exact ⟨_, add_ball_noStriker db inning_id u hs⟩
      | some s => exact ⟨_, add_ball_noBowler db inning_id u s hs h⟩
  obtain ⟨e, he⟩ := herr
  refine ⟨⟨e, he⟩, by simp [applyBall, he], ?_, ?_⟩
  · intro h; exact add_ball_noStriker db inning_id u h
  · intro h
    rcases hmiss with h' | h'
    · exact absurd h' h
    · cases hs : findStriker db inning_id with
      | none => exact absurd hs h
      | some s => exact add_ball_noBowler db inning_id u s hs h'

/-- Witness for C8: the freshly created match has no batsmen yet, so a
delivery on innings 1 fails and changes nothing. -/
theorem add_ball_requires_striker_and_bowler_witness :
    (findStriker demoDB0 1 = none ∨ findCurrentBowler demoDB0 1 = none) ∧
    ((∃ e, add_ball demoDB0 1 demoDot = .error e) ∧
      applyBall demoDB0 (1, demoDot) = demoDB0 ∧
      (findStriker demoDB0 1 = none →
        add_ball demoDB0 1 demoDot = .error .noStriker) ∧
      (findStriker demoDB0 1 ≠ none →
        add_ball demoDB0 1 demoDot = .error .noBowler)) :=
  ⟨Or.inl (by decide),
    add_ball_requires_striker_and_bowler demoDB0 1 demoDot
      (Or.inl (by decide))⟩

/-- C9: advancing the innings fails on a match whose current_inning is
already ≥ 2, and otherwise inserts innings 2 with the batting and bowling
teams swapped and sets the match's current_inning to 2. -/
theorem next_inning_swaps_teams_or_fails (db : DB) (match_id : Nat)
    (m : Match)
    (hm : db.matches_.find? (fun x => x.id == match_id) = some m) :
    (m.current_inning ≥ 2 →
      next_inning db match_id = .error .alreadySecondInning) ∧
    (m.current_inning < 2 → ∃ db',
      next_inning db match_id = .ok db' ∧
      (∃ i ∈ db'.innings, i.match_id = match_id ∧ i.inning_number = 2 ∧
        i.batting_team = m.team2 ∧ i.bowling_team = m.team1) ∧
      (∃ m' ∈ db'.matches_, m'.id = match_id ∧ m'.current_inning = 2)) := by
  have hmem := List.mem_of_find?_eq_some hm
  have hid : m.id = match_id := by simpa using List.find?_some hm
  constructor
  · intro h2
    unfold next_inning
    rw [hm]
    dsimp only
    rw [if_pos h2]
  · intro h2
    unfold next_inning
    rw [hm]
    dsimp only
    rw [if_neg (by omega)]
    refine ⟨_, rfl,
      ⟨{ id := db.next_inning_id, match_id := match_id, inning_number := 2,
         batting_team := m.team2, bowling_team := m.team1, total_runs := 0,
         total_wickets := 0, total_balls := 0, extras := 0 },
       by simp, rfl, rfl, rfl, rfl⟩, ?_⟩
    exact ⟨{ m with current_inning := 2 },
      List.mem_map.mpr ⟨m, hmem, by simp [hid]⟩, by simpa using hid, rfl⟩

/-- Witness for C9: the demo match sits in innings 1, so advancing succeeds
with teams B/A swapped. -/
theorem next_inning_swaps_teams_or_fails_witness :
    demoMatch1.current_inning < 2 ∧
    (demoDB0.matches_.find? (fun x => x.id == 1) = some demoMatch1) ∧
    ((demoMatch1.current_inning ≥ 2 →
      next_inning demoDB0 1 = .error .alreadySecondInning) ∧
    (demoMatch1.current_inning < 2 → ∃ db',
      next_inning demoDB0 1 = .ok db' ∧
      (∃ i ∈ db'.innings, i.match_id = 1 ∧ i.inning_number = 2 ∧
        i.batting_team = demoMatch1.team2 ∧
        i.bowling_team = demoMatch1.team1) ∧
      (∃ m' ∈ db'.matches_, m'.id = 1 ∧ m'.current_inning = 2))) :=
  ⟨by decide, by decide,
    next_inning_swaps_teams_or_fails demoDB0 1 demoMatch1 (by decide)⟩

/-- C10: `add_batsman` and `add_bowler` insert a row carrying the requested
inning_id for every database state and every inning_id — there is no
existence check, so either call also succeeds against an id with no innings
row. -/
theorem participants_attach_to_any_inning_id (db : DB) (inning_id : Nat)
    (name : String) (st : Bool) :
    (∃ b ∈ (add_batsman db inning_id name st).batsmen,
      b.inning_id = inning_id ∧ b.name = name) ∧
    (∃ w ∈ (add_bowler db inning_id name).bowlers,
      w.inning_id = inning_id ∧ w.name = name) :=
  ⟨⟨newBatsmanRow db inning_id name st, by simp [add_batsman], rfl, rfl⟩,
    ⟨newBowlerRow db inning_id name, by simp [add_bowler], rfl, rfl⟩⟩

/-! ### The at-most-one-striker / at-most-one-current-bowler invariant -/

/-- After `UPDATE batsmen SET is_striker = 0 WHERE inning_id = ?`, the
targeted innings has no striker. -/
theorem strikerCount_clearStrikers_self (l : List Batsman) (inning_id : Nat) :
    strikerCount (clearStrikers l inning_id) inning_id = 0 := by
  unfold strikerCount clearStrikers
  rw [List.countP_map, List.countP_eq_zero]
  intro a ha
  by_cases h : (a.inning_id == inning_id) = true <;> simp [Function.comp, h]

/-- Clearing one innings' striker flags leaves every other innings' striker
count unchanged. -/
theorem strikerCount_clearStrikers_other (l : List Batsman)
    (inning_id j : Nat) (hne : j ≠ inning_id) :
    strikerCount (clearStrikers l inning_id) j = strikerCount l j := by
  unfold strikerCount clearStrikers
  rw [List.countP_map]
  apply List.countP_congr
  intro a ha
  by_cases h : (a.inning_id == inning_id) = true
  · have h' : a.inning_id = inning_id := by simpa using h
    simp [Function.comp, h, h', Ne.symm hne]
  · simp [Function.comp, h]

/-- After `UPDATE bowlers SET is_current = 0 WHERE inning_id = ?`, the
targeted innings has no current bowler. -/
theorem currentCount_clearCurrent_self (l : List Bowler) (inning_id : Nat) :
    currentCount (clearCurrent l inning_id) inning_id = 0 := by
  unfold currentCount clearCurrent
  rw [List.countP_map, List.countP_eq_zero]
  intro a ha
  by_cases h : (a.inning_id == inning_id) = true <;> simp [Function.comp, h]

/-- Clearing one innings' current-bowler flags leaves every other innings'
count unchanged. -/
theorem currentCount_clearCurrent_other (l : List Bowler)
    (inning_id j : Nat) (hne : j ≠ inning_id) :
    currentCount (clearCurrent l inning_id) j = currentCount l j := by
  unfold currentCount clearCurrent
  rw [List.countP_map]
  apply List.countP_congr
  intro a ha
  by_cases h : (a.inning_id == inning_id) = true
  · have h' : a.inning_id = inning_id := by simpa using h
    simp [Function.comp, h, h', Ne.symm hne]
  · simp [Function.comp, h]

/-- Clearing striker flags does not touch the id column. -/
theorem map_id_clearStrikers (l : List Batsman) (inning_id : Nat) :
    (clearStrikers l inning_id).map Batsman.id = l.map Batsman.id := by
  unfold clearStrikers
  rw [List.map_map]
  apply List.map_eq_map_iff.mpr
  intro a ha
  by_cases h : (a.inning_id == inning_id) = true <;> simp [Function.comp, h]

/-- Setting the striker flag on one id does not touch the id column. -/
theorem map_id_setStrikerFlag (l : List Batsman) (batsman_id : Nat) :
    (setStrikerFlag l batsman_id).map Batsman.id = l.map Batsman.id := by
  unfold setStrikerFlag
  rw [List.map_map]
  apply List.map_eq_map_iff.mpr
  intro a ha
  by_cases h : (a.id == batsman_id) = true <;> simp [Function.comp, h]

/-- In a table whose id column is duplicate-free, at most one row carries
any given id. -/
theorem countP_id_le_one (l : List Batsman) (h : (l.map Batsman.id).Nodup)
    (v : Nat) : l.countP (fun b => b.id == v) ≤ 1 := by
  induction l with
  | nil => simp
  | cons a t ih =>
    rw [List.map_cons, List.nodup_cons] at h
    rw [List.countP_cons]
    by_cases ha : (a.id == v) = true
    · have hv : a.id = v := by simpa using ha
      have hz : t.countP (fun b => b.id == v) = 0 := by
        rw [List.countP_eq_zero]
        intro b hb hbv
        have hbid : b.id = v := by simpa using hbv
        have hmem : b.id ∈ t.map Batsman.id :=
          List.mem_map_of_mem Batsman.id hb
        rw [hbid, ← hv] at hmem
        exact h.1 hmem
      simp [ha, hz]
    · simp only [ha, if_false]
      simpa using ih h.2

/-- Closed form of the striker count after `toggle_striker`'s two
`UPDATE`s (clear the innings, then set the target id). -/
theorem strikerCount_toggle_closed (l : List Batsman)
    (batsman_id inning_id j : Nat) :
    strikerCount (setStrikerFlag (clearStrikers l inning_id) batsman_id) j =
      l.countP fun b => b.inning_id == j &&
        (if b.id == batsman_id then true
         else if b.inning_id == inning_id then false else b.is_striker) := by
  induction l with
  | nil => rfl
  | cons x t ih =>
    unfold strikerCount setStrikerFlag clearStrikers at ih ⊢
    simp only [List.map_cons, List.countP_cons]
    rw [ih]
    congr 1
    by_cases h1 : (x.id == batsman_id) = true <;>
      by_cases h2 : (x.inning_id == inning_id) = true <;>
      simp [h1, h2]

/-- A successful `toggle_striker` found the batsman and rewrote only the
striker flags of its innings. -/
theorem toggle_striker_ok (db : DB) (batsman_id : Nat) (db' : DB)
    (h : toggle_striker db batsman_id = .ok db') :
    ∃ a, db.batsmen.find? (fun b => b.id == batsman_id) = some a ∧
      db' = { db with
        batsmen := setStrikerFlag (clearStrikers db.batsmen a.inning_id) batsman_id } := by
  unfold toggle_striker at h
  cases hf : db.batsmen.find? (fun b => b.id == batsman_id) with
  | none => rw [hf] at h; exact absurd h (by simp)
  | some a =>
    rw [hf] at h
    simp only [Except.ok.injEq] at h
    exact ⟨a, rfl, h.symm⟩

/-- `toggle_striker`'s clear-then-set sequence leaves every innings with at
most one striker, provided ids are unique. -/
theorem strikerCount_toggle_le (l : List Batsman) (batsman_id : Nat)
    (a : Batsman) (hf : l.find? (fun b => b.id == batsman_id) = some a)
    (hnd : (l.map Batsman.id).Nodup)
    (hstr : ∀ j, strikerCount l j ≤ 1) (j : Nat) :
    strikerCount (setStrikerFlag (clearStrikers l a.inning_id) batsman_id) j
      ≤ 1 := by
  have haid : a.id = batsman_id := by simpa using List.find?_some hf
  have hamem : a ∈ l := List.mem_of_find?_eq_some hf
  rw [strikerCount_toggle_closed]
  by_cases hj : j = a.inning_id
  · subst hj
    refine le_trans (List.countP_mono_left ?_)
      (countP_id_le_one l hnd batsman_id)
    intro b hb hq
    by_cases hbid : (b.id == batsman_id) = true
    · exact hbid
    · exfalso
      rw [if_neg hbid, Bool.and_eq_true] at hq
      obtain ⟨hq1, hq2⟩ := hq
      rw [if_pos hq1] at hq2
      exact Bool.false_ne_true hq2
  · have hcongr : ∀ b ∈ l,
        ((b.inning_id == j &&
          (if b.id == batsman_id then true
           else if b.inning_id == a.inning_id then false
           else b.is_striker)) = true)
          ↔ ((b.inning_id == j && b.is_striker) = true) := by
      intro b hb
      by_cases hbid : (b.id == batsman_id) = true
      · have hb_id : b.id = batsman_id := by simpa using hbid
        have hba : b = a :=
          List.inj_on_of_nodup_map hnd hb hamem (by rw [hb_id, haid])
        rw [if_pos hbid]
        have hbv : b.inning_id = a.inning_id := by rw [hba]
        simp [hbv, Ne.symm hj]
      · rw [if_neg hbid]
        by_cases hbc : (b.inning_id == a.inning_id) = true
        · have hbv : b.inning_id = a.inning_id := by simpa using hbc
          rw [if_pos hbc]
          simp [hbv, Ne.symm hj]
        · rw [if_neg hbc]
    exact le_trans (le_of_eq (List.countP_congr hcongr)) (hstr j)

/-- `add_batsman` preserves the registry invariant: a striker insertion
first clears every other striker of its innings. -/
theorem regInv_add_batsman (db : DB) (inning_id : Nat) (name : String)
    (st : Bool) (h : regInv db) :
    regInv (add_batsman db inning_id name st) := by
  obtain ⟨hfresh, hnd, hstr, hcur⟩ := h
  have hids : ((if st then clearStrikers db.batsmen inning_id
        else db.batsmen) ++
        [newBatsmanRow db inning_id name st]).map Batsman.id =
      db.batsmen.map Batsman.id ++ [db.next_batsman_id] := by
    rw [List.map_append]
    cases st
    · rfl
    · rw [if_pos rfl, map_id_clearStrikers]
      rfl
  refine ⟨?_, ?_, ?_, hcur⟩
  · show ∀ b ∈ (if st then clearStrikers db.batsmen inning_id
        else db.batsmen) ++ [newBatsmanRow db inning_id name st],
      b.id < db.next_batsman_id + 1
    intro b hb
    have hb' : b.id ∈ db.batsmen.map Batsman.id ++ [db.next_batsman_id] := by
      rw [← hids]
      exact List.mem_map_of_mem Batsman.id hb
    rw [List.mem_append, List.mem_singleton] at hb'
    rcases hb' with hb' | hb'
    · obtain ⟨c, hc, hcid⟩ := List.mem_map.1 hb'
      rw [← hcid]
      exact Nat.lt_succ_of_lt (hfresh c hc)
    · omega
  · show (((if st then clearStrikers db.batsmen inning_id
        else db.batsmen) ++
        [newBatsmanRow db inning_id name st]).map Batsman.id).Nodup
    rw [hids, List.nodup_append]
    refine ⟨hnd, List.nodup_singleton _, ?_⟩
    intro x hx hx'
    rw [List.mem_singleton] at hx'
    subst hx'
    obtain ⟨c, hc, hcid⟩ := List.mem_map.1 hx
    exact absurd (hcid ▸ hfresh c hc) (Nat.lt_irrefl _)
  · intro j
    show strikerCount ((if st then clearStrikers db.batsmen inning_id
        else db.batsmen) ++ [newBatsmanRow db inning_id name st]) j ≤ 1
    unfold strikerCount
    rw [List.countP_append]
    cases st with
    | false =>
      rw [if_neg (by simp)]
      have h1 : List.countP
          (fun b => b.inning_id == j && b.is_striker)
          [newBatsmanRow db inning_id name false] = 0 := by
        simp [newBatsmanRow]
      rw [h1]
      simpa [strikerCount] using hstr j
    | true =>
      rw [if_pos rfl]
      by_cases hj : j = inning_id
      · subst hj
        have h0 := strikerCount_clearStrikers_self db.batsmen j
        unfold strikerCount at h0
        rw [h0]
        simp [newBatsmanRow]
      · have h0 := strikerCount_clearStrikers_other db.batsmen inning_id j hj
        unfold strikerCount at h0
        rw [h0]
        have h1 : List.countP
            (fun b => b.inning_id == j && b.is_striker)
            [newBatsmanRow db inning_id name true] = 0 := by
          simp [newBatsmanRow, Ne.symm hj]
        rw [h1]
        simpa [strikerCount] using hstr j

/-- `add_bowler` preserves the registry invariant: every insertion first
clears all other current-bowler flags of its innings and arrives flagged. -/
theorem regInv_add_bowler (db : DB) (inning_id : Nat) (name : String)
    (h : regInv db) : regInv (add_bowler db inning_id name) := by
  obtain ⟨hfresh, hnd, hstr, hcur⟩ := h
  refine ⟨hfresh, hnd, hstr, ?_⟩
  intro j
  show currentCount (clearCurrent db.bowlers inning_id ++
      [newBowlerRow db inning_id name]) j ≤ 1
  unfold currentCount
  rw [List.countP_append]
  by_cases hj : j = inning_id
  · subst hj
    have h0 := currentCount_clearCurrent_self db.bowlers j
    unfold currentCount at h0
    rw [h0]
    simp [newBowlerRow]
  · have h0 := currentCount_clearCurrent_other db.bowlers inning_id j hj
    unfold currentCount at h0
    rw [h0]
    have h1 : List.countP
        (fun w => w.inning_id == j && w.is_current)
        [newBowlerRow db inning_id name] = 0 := by
      simp [newBowlerRow, Ne.symm hj]
    rw [h1]
    simpa [currentCount] using hcur j

/-- A successful `toggle_striker` preserves the registry invariant. -/
theorem regInv_toggle_ok (db : DB) (batsman_id : Nat) (db' : DB)
    (hok : toggle_striker db batsman_id = .ok db') (h : regInv db) :
    regInv db' := by
  obtain ⟨hfresh, hnd, hstr, hcur⟩ := h
  obtain ⟨a, hf, rfl⟩ := toggle_striker_ok db batsman_id db' hok
  have hids : (setStrikerFlag (clearStrikers db.batsmen a.inning_id)
      batsman_id).map Batsman.id = db.batsmen.map Batsman.id := by
    rw [map_id_setStrikerFlag, map_id_clearStrikers]
  refine ⟨?_, ?_, ?_, hcur⟩
  · show ∀ b ∈ setStrikerFlag (clearStrikers db.batsmen a.inning_id)
        batsman_id, b.id < db.next_batsman_id
    intro b hb
    have hb' : b.id ∈ db.batsmen.map Batsman.id := by
      rw [← hids]
      exact List.mem_map_of_mem Batsman.id hb
    obtain ⟨c, hc, hcid⟩ := List.mem_map.1 hb'
    rw [← hcid]
    exact hfresh c hc
  · show ((setStrikerFlag (clearStrikers db.batsmen a.inning_id)
        batsman_id).map Batsman.id).Nodup
    rw [hids]
    exact hnd
  · intro j
    exact strikerCount_toggle_le db.batsmen batsman_id a hf hnd hstr j

/-- Every registry request preserves the invariant. -/
theorem regInv_applyOp (db : DB) (op : Op) (h : regInv db) :
    regInv (applyOp db op) := by
  cases op with
  | addBatsman inning_id name st => exact regInv_add_batsman db inning_id name st h
  | addBowler inning_id name => exact regInv_add_bowler db inning_id name h
  | setStriker batsman_id =>
    show regInv (match toggle_striker db batsman_id with
      | .ok db' => db'
      | .error _ => db)
    cases hf : toggle_striker db batsman_id with
    | error e => exact h
    | ok db' => exact regInv_toggle_ok db batsman_id db' hf h

/-- Registry-request sequences preserve the invariant. -/
theorem regInv_runOps (db : DB) (ops : List Op) (h : regInv db) :
    regInv (runOps db ops) := by
  induction ops generalizing db with
  | nil => exact h
  | cons op ops ih => exact ih (applyOp db op) (regInv_applyOp db op h)

/-- C7: after any sequence of addBatsman / addBowler / setStriker requests
from an invariant-satisfying state (unique ids, at most one striker and one
current bowler per innings), every innings still has at most one striker and
at most one current bowler. -/
theorem at_most_one_striker_and_one_current_bowler (db : DB) (ops : List Op)
    (h : regInv db) :
    (∀ inning_id, strikerCount (runOps db ops).batsmen inning_id ≤ 1) ∧
    (∀ inning_id, currentCount (runOps db ops).bowlers inning_id ≤ 1) :=
  ⟨(regInv_runOps db ops h).2.2.1, (regInv_runOps db ops h).2.2.2⟩

/-- Witness for C7: the sample workload on the fresh database. -/
theorem at_most_one_striker_and_one_current_bowler_witness :
    regInv DB.empty ∧
    ((∀ inning_id,
        strikerCount (runOps DB.empty demoOps).batsmen inning_id ≤ 1) ∧
      (∀ inning_id,
        currentCount (runOps DB.empty demoOps).bowlers inning_id ≤ 1)) :=
  ⟨⟨by simp [DB.empty], by simp [DB.empty],
      fun j => by simp [DB.empty, strikerCount],
      fun j => by simp [DB.empty, currentCount]⟩,
    at_most_one_striker_and_one_current_bowler DB.empty demoOps
      ⟨by simp [DB.empty], by simp [DB.empty],
        fun j => by simp [DB.empty, strikerCount],
        fun j => by simp [DB.empty, currentCount]⟩⟩

end GullyCricket
